import Mathlib

/-!
Shallow embedding of the Parsl flow-control strategy
(`parsl/dataflow/strategy.py`, class `Strategy`, method `_general_strategy`).

The method iterates over executor snapshots; for one snapshot it reads
`active_tasks = executor.outstanding`, the provider limits `min_blocks` /
`max_blocks` / `nodes_per_block` / `parallelism`, counts `running` / `pending`
blocks from the provider status, derives `active_blocks` and `active_slots`,
maintains a per-executor `idle_since : Optional[float]` timestamp, and then
walks a chain of cases that may call `scale_out` / `scale_in` on the
executor's poll item.

We model one iteration of that loop as a pure function from a `Snapshot`
(the per-executor inputs), the current `idle_since` entry, the current time
`now` (both calls to `time.time()` inside one iteration are modelled by the
same instant), `max_idletime` and the strategy type (`'simple'` from
`_strategy_simple`, `'htex'` from `_strategy_htex_auto_scale`) to an
`Except`-value: either a Python exception (as a message string) or the pair
of the issued scaling action and the updated `idle_since` entry.

Python `float` quantities (timestamps, `parallelism`, the division results)
are modelled by `ℚ`; Python `int` counts by `Int` (the two block counts,
which are sums of `1`s over the status dictionary, by `Nat`).
-/

namespace ParslStrategy

/-- A fragment of the Python object model, rich enough to give meaning to the
statement `assert(RuntimeError("BENC: missing else statement in executor case
matching"))` at strategy.py:241. -/
inductive PyObject where
  | pyBool (b : Bool)
  | pyInt (n : Int)
  | pyNone
  | runtimeError (msg : String)
deriving DecidableEq

/-- Python truthiness. An exception instance such as `RuntimeError(...)`
defines neither `__bool__` nor `__len__`, so it falls back to the default
object truthiness, which is `True`. -/
def pyTruthy : PyObject → Bool
  | .pyBool b => b
  | .pyInt n => n != 0
  | .pyNone => false
  | .runtimeError _ => true

/-- A Python `assert e` statement: raises `AssertionError` when `e` is falsy,
otherwise does nothing. -/
def pyAssert (v : PyObject) : Except String Unit :=
  if pyTruthy v then Except.ok () else Except.error "AssertionError"

/-- The `strategy_type` argument of `_general_strategy`: `'simple'` is passed
by `_strategy_simple`, `'htex'` by `_strategy_htex_auto_scale`. -/
inductive StrategyType where
  | simple
  | htex
deriving DecidableEq

/-- The possible calls issued on `exec_status` in one loop iteration:
nothing, `scale_out(n)`, `scale_in(n)` (strategy.py:310), or
`scale_in(n, force=False, max_idletime=self.max_idletime)` (strategy.py:349). -/
inductive ScalingAction where
  | noOp
  | scaleOut (n : Int)
  | scaleIn (n : Int)
  | scaleInDrain (n : Int) (force : Bool) (maxIdletime : ℚ)
deriving DecidableEq

/-- The block count carried by a scale-in action of either form. -/
def ScalingAction.scaleInCount : ScalingAction → Option Int
  | .scaleIn n => some n
  | .scaleInDrain n _ _ => some n
  | _ => none

/-- The per-executor inputs read by one iteration of the strategy loop:
`executor.scaling_enabled`, `executor.outstanding`, the counts of RUNNING and
PENDING jobs in `status`, `provider.min_blocks`, `provider.max_blocks`,
whether the executor is a `HighThroughputExecutor` (the `isinstance` test at
strategy.py:233), `executor.workers_per_node`, `provider.nodes_per_block`
and `provider.parallelism`. -/
structure Snapshot where
  scaling_enabled : Bool
  outstanding : Int
  running : Nat
  pending : Nat
  min_blocks : Int
  max_blocks : Int
  is_htex : Bool
  workers_per_node : Int
  nodes_per_block : Int
  parallelism : ℚ
deriving DecidableEq

/-- `active_blocks = running + pending` (strategy.py:248). -/
def Snapshot.active_blocks (s : Snapshot) : Int :=
  (s.running : Int) + (s.pending : Int)

/-- `active_slots = active_blocks * tasks_per_node * nodes_per_block`
(strategy.py:249); for a `HighThroughputExecutor`, `tasks_per_node` is
`executor.workers_per_node` (strategy.py:234). -/
def Snapshot.active_slots (s : Snapshot) : Int :=
  s.active_blocks * s.workers_per_node * s.nodes_per_block

/-- The per-block slot count `tasks_per_node * nodes_per_block`, the
denominator at strategy.py:330. -/
def Snapshot.slots_per_block (s : Snapshot) : Int :=
  s.workers_per_node * s.nodes_per_block

/-- Python truthiness of the `Optional[float]` value `idle_since`: `None` and
`0.0` are falsy, every other float is truthy. -/
def qTruthy : Option ℚ → Bool
  | none => false
  | some t => t != 0

/-- Models strategy.py:272-273: `if active_tasks > 0 and self.executors[label]['idle_since']:
self.executors[label]['idle_since'] = None` — the kill timer is reset as soon
as the executor has active tasks. -/
def resetIdleOnActiveTasks (s : Snapshot) (idle : Option ℚ) : Option ℚ :=
  if 0 < s.outstanding ∧ qTruthy idle then none else idle

/-- Models strategy.py:290-294: `if not self.executors[label]['idle_since']: ... =
time.time()` — start the kill timer when the stored value is falsy. -/
def startKillTimer (now : ℚ) (idle : Option ℚ) : Option ℚ :=
  if qTruthy idle then idle else some now

/-- Models strategy.py:304: `idle_since is not None and (time.time() - idle_since) >
self.max_idletime`. -/
def idleExpired (idle : Option ℚ) (now max_idletime : ℚ) : Bool :=
  match idle with
  | none => false
  | some t => max_idletime < now - t

/-- Models strategy.py:329: `excess = math.ceil((active_tasks * parallelism) - active_slots)`. -/
def excessSlots (s : Snapshot) : Int :=
  ⌈(s.outstanding : ℚ) * s.parallelism - (s.active_slots : ℚ)⌉

/-- Models strategy.py:330-331: `excess_blocks = math.ceil(float(excess) /
(tasks_per_node * nodes_per_block)); excess_blocks = min(excess_blocks,
max_blocks - active_blocks)`. -/
def excessBlocksClamped (s : Snapshot) : Int :=
  min ⌈(excessSlots s : ℚ) / (s.slots_per_block : ℚ)⌉ (s.max_blocks - s.active_blocks)

/-- Models strategy.py:233-241: the executor-type dispatch. For a
`HighThroughputExecutor` it binds `tasks_per_node = executor.workers_per_node`;
otherwise it executes `assert(RuntimeError("BENC: missing else statement in
executor case matching"))` and leaves `tasks_per_node` unbound (`none`). -/
def executorTypeGuard (s : Snapshot) : Except String (Option Int) :=
  if s.is_htex then Except.ok (some s.workers_per_node)
  else
    match pyAssert (PyObject.runtimeError "BENC: missing else statement in executor case matching") with
    | .ok _ => Except.ok none
    | .error e => Except.error e

/-- Models strategy.py:272-360: the idle-timer update followed by the case chain.
Each branch returns the issued action together with the executor's
`idle_since` entry as it stands at the end of the iteration. The only raise
points are reproduced in `generalStrategy` (unbound `tasks_per_node`) and in
the float division by `tasks_per_node * nodes_per_block` at strategy.py:330. -/
def decideCases (s : Snapshot) (idle_since : Option ℚ) (now max_idletime : ℚ)
    (strategy_type : StrategyType) : Except String (ScalingAction × Option ℚ) :=
  -- Case 1: no tasks
  if s.outstanding = 0 then
    -- Case 1a: fewer blocks than min_blocks — ignore
    if s.active_blocks ≤ s.min_blocks then
      Except.ok (ScalingAction.noOp, resetIdleOnActiveTasks s idle_since)
    else
      -- Case 1b: start the kill timer if unset, scale in when it has expired
      if idleExpired (startKillTimer now (resetIdleOnActiveTasks s idle_since)) now max_idletime then
        Except.ok (ScalingAction.scaleIn (s.active_blocks - s.min_blocks),
          startKillTimer now (resetIdleOnActiveTasks s idle_since))
      else
        Except.ok (ScalingAction.noOp, startKillTimer now (resetIdleOnActiveTasks s idle_since))
  -- Case 2: more tasks than the available slots
  else if (s.active_slots : ℚ) / (s.outstanding : ℚ) < s.parallelism then
    -- Case 2a: already at max blocks — ignore
    if s.active_blocks ≥ s.max_blocks then
      Except.ok (ScalingAction.noOp, resetIdleOnActiveTasks s idle_since)
    -- Case 2b: request the clamped number of extra blocks
    else if s.slots_per_block = 0 then
      Except.error "ZeroDivisionError: float division by zero"
    else
      Except.ok (ScalingAction.scaleOut (excessBlocksClamped s), resetIdleOnActiveTasks s idle_since)
  -- strategy.py:335-339: zero slots with pending work — bootstrap one block
  else if s.active_slots = 0 ∧ 0 < s.outstanding then
    if s.active_blocks < s.max_blocks then
      Except.ok (ScalingAction.scaleOut 1, resetIdleOnActiveTasks s idle_since)
    else
      Except.ok (ScalingAction.noOp, resetIdleOnActiveTasks s idle_since)
  -- Case 4: more slots than tasks
  else if 0 < s.active_slots ∧ s.outstanding < s.active_slots then
    if strategy_type = StrategyType.htex then
      if s.is_htex then
        if s.min_blocks < s.active_blocks then
          Except.ok (ScalingAction.scaleInDrain 1 false max_idletime,
            resetIdleOnActiveTasks s idle_since)
        else Except.ok (ScalingAction.noOp, resetIdleOnActiveTasks s idle_since)
      else Except.ok (ScalingAction.noOp, resetIdleOnActiveTasks s idle_since)
    else
      -- 'simple': skip
      Except.ok (ScalingAction.noOp, resetIdleOnActiveTasks s idle_since)
  -- Case 3: tasks ~ slots
  else Except.ok (ScalingAction.noOp, resetIdleOnActiveTasks s idle_since)

/-- One iteration of the loop in `_general_strategy` for one executor:
skip when scaling is disabled (strategy.py:217-218), run the executor-type
dispatch, raise `UnboundLocalError` where strategy.py:249 would read the
never-assigned `tasks_per_node` for a non-HTEX executor, and otherwise run
the case chain. -/
def generalStrategy (s : Snapshot) (idle_since : Option ℚ) (now max_idletime : ℚ)
    (strategy_type : StrategyType) : Except String (ScalingAction × Option ℚ) :=
  if s.scaling_enabled = false then Except.ok (ScalingAction.noOp, idle_since)
  else
    match executorTypeGuard s with
    | .error e => Except.error e
    | .ok none =>
        Except.error "UnboundLocalError: local variable tasks_per_node referenced before assignment"
    | .ok (some _) => decideCases s idle_since now max_idletime strategy_type


/-- Claim C1 (floor invariant): whenever one strategy iteration issues a
scale-in of `n` blocks, `active_blocks - n >= min_blocks`; and when the
zero-active-tasks branch triggered it, `active_blocks - n = min_blocks`
exactly. -/
theorem scaleIn_floor_invariant (s : Snapshot) (idle idle' : Option ℚ)
    (now mit : ℚ) (ty : StrategyType) (act : ScalingAction) (n : Int)
    (h : generalStrategy s idle now mit ty = Except.ok (act, idle'))
    (hn : act.scaleInCount = some n) :
    s.min_blocks ≤ s.active_blocks - n ∧
      (s.outstanding = 0 → s.active_blocks - n = s.min_blocks) := by
  unfold generalStrategy at h
  by_cases he : s.scaling_enabled = false
  · rw [if_pos he] at h
    simp only [Except.ok.injEq, Prod.mk.injEq] at h
    obtain ⟨rfl, rfl⟩ := h
    simp [ScalingAction.scaleInCount] at hn
  · rw [if_neg he] at h
    cases hx : s.is_htex
    · simp [executorTypeGuard, hx, pyAssert, pyTruthy] at h
    · simp only [executorTypeGuard, hx, if_true] at h
      unfold decideCases at h
      split_ifs at h <;>
        simp only [Except.ok.injEq, Prod.mk.injEq] at h <;>
        obtain ⟨rfl, rfl⟩ := h <;>
        simp only [ScalingAction.scaleInCount, Option.some.injEq, reduceCtorEq] at hn
      all_goals subst hn
      all_goals exact ⟨by omega, fun h0 => by omega⟩


/-- An idle executor: zero outstanding tasks, 3 running blocks, floor 0,
ceiling 4, 2 workers per node, 1 node per block, parallelism 1. -/
def exIdle : Snapshot :=
  { scaling_enabled := true, outstanding := 0, running := 3, pending := 0,
    min_blocks := 0, max_blocks := 4, is_htex := true, workers_per_node := 2,
    nodes_per_block := 1, parallelism := 1 }

lemma exIdle_eval :
    generalStrategy exIdle (some 5) 100 10 StrategyType.simple =
      Except.ok (ScalingAction.scaleIn 3, some 5) := by
  norm_num [generalStrategy, executorTypeGuard, decideCases, exIdle,
    Snapshot.active_blocks, Snapshot.active_slots, Snapshot.slots_per_block,
    resetIdleOnActiveTasks, startKillTimer, idleExpired, qTruthy]

/-- An under-provisioned executor: 6 outstanding tasks on 2 blocks of 2 slots. -/
def exLoad : Snapshot :=
  { scaling_enabled := true, outstanding := 6, running := 2, pending := 0,
    min_blocks := 0, max_blocks := 4, is_htex := true, workers_per_node := 2,
    nodes_per_block := 1, parallelism := 1 }

lemma exLoad_eval :
    generalStrategy exLoad none 0 10 StrategyType.simple =
      Except.ok (ScalingAction.scaleOut 1, none) := by
  norm_num [generalStrategy, executorTypeGuard, decideCases, exLoad,
    Snapshot.active_blocks, Snapshot.active_slots, Snapshot.slots_per_block,
    resetIdleOnActiveTasks, startKillTimer, idleExpired, qTruthy,
    excessBlocksClamped, excessSlots]


theorem scaleIn_floor_invariant_witness :
    exIdle.min_blocks ≤ exIdle.active_blocks - 3 ∧
      (exIdle.outstanding = 0 → exIdle.active_blocks - 3 = exIdle.min_blocks) :=
  scaleIn_floor_invariant exIdle (some 5) (some 5) 100 10 StrategyType.simple
    (ScalingAction.scaleIn 3) 3 exIdle_eval rfl

/-- Claim C2 (ceiling invariant): whenever one strategy iteration issues a
scale-out of `n` blocks, `active_blocks + n <= max_blocks`; this covers both
the clamped under-provisioned branch and the single-block bootstrap branch. -/
theorem scaleOut_ceiling_invariant (s : Snapshot) (idle idle' : Option ℚ)
    (now mit : ℚ) (ty : StrategyType) (n : Int)
    (h : generalStrategy s idle now mit ty =
      Except.ok (ScalingAction.scaleOut n, idle')) :
    s.active_blocks + n ≤ s.max_blocks := by
  unfold generalStrategy at h
  by_cases he : s.scaling_enabled = false
  · rw [if_pos he] at h
    simp at h
  · rw [if_neg he] at h
    cases hx : s.is_htex
    · simp [executorTypeGuard, hx, pyAssert, pyTruthy] at h
    · simp only [executorTypeGuard, hx, if_true] at h
      unfold decideCases at h
      split_ifs at h <;>
        simp only [Except.ok.injEq, Prod.mk.injEq, ScalingAction.scaleOut.injEq,
          reduceCtorEq, false_and] at h
      all_goals obtain ⟨rfl, rfl⟩ := h
      · have := min_le_right
          (⌈(excessSlots s : ℚ) / (s.slots_per_block : ℚ)⌉)
          (s.max_blocks - s.active_blocks)
        simp only [excessBlocksClamped]
        omega
      · omega

theorem scaleOut_ceiling_invariant_witness : exLoad.active_blocks + 1 ≤ exLoad.max_blocks :=
  scaleOut_ceiling_invariant exLoad none none 0 10 StrategyType.simple 1 exLoad_eval


/-- The kill timer after `startKillTimer` is always a set timestamp: either
the stored truthy value or the freshly stored `now`. -/
lemma startKillTimer_ne_none (now : ℚ) (idle : Option ℚ) :
    startKillTimer now idle ≠ none := by
  unfold startKillTimer
  cases idle with
  | none => simp [qTruthy]
  | some t =>
    by_cases ht : qTruthy (some t) <;> simp [ht]

/-- Claim C3, counterexample: with 0 active tasks, 3 active blocks above the
floor and an expired kill timer started at t=5, the cycle issues
`scale_in(3)` but leaves `idle_since` at `some 5` instead of resetting it to
`None`: `_general_strategy` contains no reset of `idle_since` after either
`scale_in` call. -/
theorem scaleIn_idle_reset_counterexample :
    generalStrategy exIdle (some 5) 100 10 StrategyType.simple =
      Except.ok (ScalingAction.scaleIn 3, some 5) ∧
      some (5 : ℚ) ≠ (none : Option ℚ) :=
  ⟨exIdle_eval, by simp⟩

/-- Claim C3, amended: after the zero-active-tasks branch issues a scale-in,
the executor idleness record is left as the still-set (and still-expired)
timer; it is not reset to `None` in that cycle. Only the arrival of active
tasks (strategy.py:272-273) resets it. -/
theorem scaleIn_keeps_idle_timer (s : Snapshot) (idle idle' : Option ℚ)
    (now mit : ℚ) (ty : StrategyType) (n : Int)
    (h : generalStrategy s idle now mit ty =
      Except.ok (ScalingAction.scaleIn n, idle')) :
    idle' ≠ none := by
  unfold generalStrategy at h
  by_cases he : s.scaling_enabled = false
  · rw [if_pos he] at h
    simp at h
  · rw [if_neg he] at h
    cases hx : s.is_htex
    · simp [executorTypeGuard, hx, pyAssert, pyTruthy] at h
    · simp only [executorTypeGuard, hx, if_true] at h
      unfold decideCases at h
      split_ifs at h <;>
        simp only [Except.ok.injEq, Prod.mk.injEq, reduceCtorEq, false_and] at h
      obtain ⟨-, rfl⟩ := h
      exact startKillTimer_ne_none now (resetIdleOnActiveTasks s idle)

theorem scaleIn_keeps_idle_timer_witness : some (5 : ℚ) ≠ (none : Option ℚ) :=
  scaleIn_keeps_idle_timer exIdle (some 5) (some 5) 100 10 StrategyType.simple 3
    exIdle_eval

lemma exIdle_eval_warm :
    generalStrategy exIdle (some 95) 100 10 StrategyType.simple =
      Except.ok (ScalingAction.noOp, some 95) := by
  norm_num [generalStrategy, executorTypeGuard, decideCases, exIdle,
    Snapshot.active_blocks, Snapshot.active_slots, Snapshot.slots_per_block,
    resetIdleOnActiveTasks, startKillTimer, idleExpired, qTruthy]

/-- Claim C4 (no premature scale-in): with zero active tasks and a stored
`idle_since = t` whose elapsed time `now - t` is still below `max_idletime`
(taken non-negative, as the spec requires of the configured duration), the
cycle issues no scale-in of either form. -/
theorem no_premature_scale_in (s : Snapshot) (idle idle' : Option ℚ)
    (t now mit : ℚ) (ty : StrategyType) (act : ScalingAction)
    (h0 : s.outstanding = 0) (hidle : idle = some t)
    (hlt : now - t < mit) (hmit : 0 ≤ mit)
    (h : generalStrategy s idle now mit ty = Except.ok (act, idle')) :
    act.scaleInCount = none := by
  subst hidle
  unfold generalStrategy at h
  by_cases he : s.scaling_enabled = false
  · rw [if_pos he] at h
    simp only [Except.ok.injEq, Prod.mk.injEq] at h
    obtain ⟨rfl, rfl⟩ := h
    simp [ScalingAction.scaleInCount]
  · rw [if_neg he] at h
    cases hx : s.is_htex
    · simp [executorTypeGuard, hx, pyAssert, pyTruthy] at h
    · simp only [executorTypeGuard, hx, if_true] at h
      unfold decideCases at h
      rw [if_pos h0] at h
      have hreset : resetIdleOnActiveTasks s (some t) = some t := by
        simp [resetIdleOnActiveTasks, h0]
      rw [hreset] at h
      split_ifs at h with h1 h2
      · simp only [Except.ok.injEq, Prod.mk.injEq] at h
        obtain ⟨rfl, rfl⟩ := h
        simp [ScalingAction.scaleInCount]
      · exfalso
        unfold startKillTimer at h2
        by_cases ht : qTruthy (some t)
        · rw [if_pos ht] at h2
          simp only [idleExpired, decide_eq_true_eq] at h2
          linarith
        · rw [if_neg ht] at h2
          simp only [idleExpired, decide_eq_true_eq] at h2
          linarith
      · simp only [Except.ok.injEq, Prod.mk.injEq] at h
        obtain ⟨rfl, rfl⟩ := h
        simp [ScalingAction.scaleInCount]

theorem no_premature_scale_in_witness : ScalingAction.noOp.scaleInCount = none :=
  no_premature_scale_in exIdle (some 95) (some 95) 95 100 10 StrategyType.simple
    ScalingAction.noOp rfl rfl (by norm_num) (by norm_num) exIdle_eval_warm


/-- A balanced executor evaluated under `parallelism = 2`: 4 outstanding
tasks on exactly 4 slots (1 running block of 4 workers). -/
def exBal2 : Snapshot :=
  { scaling_enabled := true, outstanding := 4, running := 1, pending := 0,
    min_blocks := 0, max_blocks := 4, is_htex := true, workers_per_node := 4,
    nodes_per_block := 1, parallelism := 2 }

lemma exBal2_eval :
    generalStrategy exBal2 none 0 10 StrategyType.simple =
      Except.ok (ScalingAction.scaleOut 1, none) := by
  norm_num [generalStrategy, executorTypeGuard, decideCases, exBal2,
    Snapshot.active_blocks, Snapshot.active_slots, Snapshot.slots_per_block,
    resetIdleOnActiveTasks, startKillTimer, idleExpired, qTruthy,
    excessBlocksClamped, excessSlots]

/-- Claim C5, counterexample: a balanced snapshot (`active_slots =
active_tasks = 4 > 0`) with the permitted parallelism value 2 ∈ (0, ∞) is
not a fixed point — the cycle issues `scale_out(1)`, because `active_slots /
active_tasks = 1 < 2 = parallelism` puts it in the under-provisioned branch. -/
theorem balanced_state_counterexample :
    exBal2.active_slots = exBal2.outstanding ∧ 0 < exBal2.outstanding ∧
      0 < exBal2.parallelism ∧
      generalStrategy exBal2 none 0 10 StrategyType.simple =
        Except.ok (ScalingAction.scaleOut 1, none) ∧
      ScalingAction.scaleOut 1 ≠ ScalingAction.noOp := by
  refine ⟨?_, ?_, ?_, exBal2_eval, by simp⟩ <;>
    norm_num [exBal2, Snapshot.active_slots, Snapshot.active_blocks]

/-- Resetting the kill timer on active tasks is idempotent. -/
lemma resetIdleOnActiveTasks_idem (s : Snapshot) (idle : Option ℚ) :
    resetIdleOnActiveTasks s (resetIdleOnActiveTasks s idle) =
      resetIdleOnActiveTasks s idle := by
  unfold resetIdleOnActiveTasks
  split_ifs with h1 h2 <;> simp_all [qTruthy]

/-- Claim C5, amended: for parallelism in the range (0, 1] documented in the
strategy docstring (`0 <= p <= 1`), a balanced snapshot (`active_slots =
active_tasks > 0`) is a fixed point: the cycle issues no command, and
re-evaluating the unchanged snapshot at any later time again issues no
command. For `parallelism > 1` this fails (see the counterexample). -/
theorem balanced_state_noop (s : Snapshot) (idle idle' : Option ℚ)
    (now now2 mit : ℚ) (ty : StrategyType) (act : ScalingAction)
    (_hp0 : 0 < s.parallelism) (hp1 : s.parallelism ≤ 1)
    (ht : 0 < s.outstanding) (hb : s.active_slots = s.outstanding)
    (h : generalStrategy s idle now mit ty = Except.ok (act, idle')) :
    act = ScalingAction.noOp ∧
      generalStrategy s idle' now2 mit ty =
        Except.ok (ScalingAction.noOp, idle') := by
  have hout : ¬ s.outstanding = 0 := by omega
  have hcast : ((s.outstanding : ℚ)) ≠ 0 := by
    exact_mod_cast hout
  have hratio : ¬ ((s.active_slots : ℚ) / (s.outstanding : ℚ) < s.parallelism) := by
    rw [hb, div_self hcast]
    exact not_lt.2 hp1
  have hboot : ¬ (s.active_slots = 0 ∧ 0 < s.outstanding) := by
    rintro ⟨h1, -⟩
    omega
  have hover : ¬ (0 < s.active_slots ∧ s.outstanding < s.active_slots) := by
    rintro ⟨-, h2⟩
    omega
  unfold generalStrategy at h ⊢
  by_cases he : s.scaling_enabled = false
  · rw [if_pos he] at h ⊢
    simp only [Except.ok.injEq, Prod.mk.injEq] at h
    obtain ⟨rfl, rfl⟩ := h
    exact ⟨rfl, rfl⟩
  · rw [if_neg he] at h ⊢
    cases hx : s.is_htex
    · simp [executorTypeGuard, hx, pyAssert, pyTruthy] at h
    · simp only [executorTypeGuard, hx, if_true] at h ⊢
      unfold decideCases at h ⊢
      rw [if_neg hout, if_neg hratio, if_neg hboot, if_neg hover] at h ⊢
      simp only [Except.ok.injEq, Prod.mk.injEq] at h
      obtain ⟨rfl, rfl⟩ := h
      exact ⟨rfl, by rw [resetIdleOnActiveTasks_idem]⟩

/-- A balanced executor under `parallelism = 1`. -/
def exBal1 : Snapshot :=
  { scaling_enabled := true, outstanding := 4, running := 1, pending := 0,
    min_blocks := 0, max_blocks := 4, is_htex := true, workers_per_node := 4,
    nodes_per_block := 1, parallelism := 1 }

lemma exBal1_eval :
    generalStrategy exBal1 none 0 10 StrategyType.simple =
      Except.ok (ScalingAction.noOp, none) := by
  norm_num [generalStrategy, executorTypeGuard, decideCases, exBal1,
    Snapshot.active_blocks, Snapshot.active_slots, Snapshot.slots_per_block,
    resetIdleOnActiveTasks, startKillTimer, idleExpired, qTruthy]

theorem balanced_state_noop_witness :
    ScalingAction.noOp = ScalingAction.noOp ∧
      generalStrategy exBal1 none 1 10 StrategyType.simple =
        Except.ok (ScalingAction.noOp, none) :=
  balanced_state_noop exBal1 none none 0 1 10 StrategyType.simple
    ScalingAction.noOp (by norm_num [exBal1]) (by norm_num [exBal1])
    (by norm_num [exBal1])
    (by norm_num [exBal1, Snapshot.active_slots, Snapshot.active_blocks])
    exBal1_eval


/-- Claim C6 (mode asymmetry): on an over-provisioned HTEX snapshot
(`active_slots > active_tasks > 0`, ratio not below `parallelism`,
`active_blocks > min_blocks`), the `htex_auto_scale` strategy issues
`scale_in(1, force=False, max_idletime=self.max_idletime)` while the
`simple` strategy issues no command on the same inputs. -/
theorem over_provisioned_mode_asymmetry (s : Snapshot) (idle : Option ℚ)
    (now mit : ℚ)
    (hen : s.scaling_enabled = true) (hx : s.is_htex = true)
    (ht : 0 < s.outstanding) (hs : s.outstanding < s.active_slots)
    (hratio : s.parallelism ≤ (s.active_slots : ℚ) / (s.outstanding : ℚ))
    (hmin : s.min_blocks < s.active_blocks) :
    generalStrategy s idle now mit StrategyType.htex =
      Except.ok (ScalingAction.scaleInDrain 1 false mit,
        resetIdleOnActiveTasks s idle) ∧
    generalStrategy s idle now mit StrategyType.simple =
      Except.ok (ScalingAction.noOp, resetIdleOnActiveTasks s idle) := by
  have hout : ¬ s.outstanding = 0 := by omega
  have hslots : 0 < s.active_slots := by omega
  have hnratio : ¬ ((s.active_slots : ℚ) / (s.outstanding : ℚ) < s.parallelism) :=
    not_lt.2 hratio
  have hboot : ¬ (s.active_slots = 0 ∧ 0 < s.outstanding) := by
    rintro ⟨h1, -⟩
    omega
  have hover : 0 < s.active_slots ∧ s.outstanding < s.active_slots := ⟨hslots, hs⟩
  constructor <;>
  · unfold generalStrategy
    rw [if_neg (by simp [hen])]
    simp only [executorTypeGuard, hx, if_true]
    unfold decideCases
    rw [if_neg hout, if_neg hnratio, if_neg hboot, if_pos hover]
    simp [hx, hmin]

/-- An over-provisioned HTEX executor: 2 outstanding tasks on 2 running
blocks of 2 slots each (4 slots), floor 0. -/
def exOver : Snapshot :=
  { scaling_enabled := true, outstanding := 2, running := 2, pending := 0,
    min_blocks := 0, max_blocks := 4, is_htex := true, workers_per_node := 2,
    nodes_per_block := 1, parallelism := 1 }

theorem over_provisioned_mode_asymmetry_witness :
    generalStrategy exOver none 0 7 StrategyType.htex =
      Except.ok (ScalingAction.scaleInDrain 1 false 7,
        resetIdleOnActiveTasks exOver none) ∧
    generalStrategy exOver none 0 7 StrategyType.simple =
      Except.ok (ScalingAction.noOp, resetIdleOnActiveTasks exOver none) :=
  over_provisioned_mode_asymmetry exOver none 0 7 rfl rfl
    (by norm_num [exOver])
    (by norm_num [exOver, Snapshot.active_slots, Snapshot.active_blocks])
    (by norm_num [exOver, Snapshot.active_slots, Snapshot.active_blocks])
    (by norm_num [exOver, Snapshot.active_blocks])

/-- Claim C7 (no zero scale-out): with a positive task count and positive
per-block slot capacity, every `scale_out(n)` the strategy issues has
`n > 0`; in the under-provisioned branch the clamped
`min(ceil(excess / slots_per_block), max_blocks - active_blocks)` is at
least 1, and the bootstrap branch issues exactly 1. -/
theorem scaleOut_positive (s : Snapshot) (idle idle' : Option ℚ)
    (now mit : ℚ) (ty : StrategyType) (n : Int)
    (ht : 0 < s.outstanding) (hw : 0 < s.workers_per_node)
    (hnb : 0 < s.nodes_per_block)
    (h : generalStrategy s idle now mit ty =
      Except.ok (ScalingAction.scaleOut n, idle')) :
    0 < n := by
  unfold generalStrategy at h
  by_cases he : s.scaling_enabled = false
  · rw [if_pos he] at h
    simp at h
  · rw [if_neg he] at h
    cases hx : s.is_htex
    · simp [executorTypeGuard, hx, pyAssert, pyTruthy] at h
    · simp only [executorTypeGuard, hx, if_true] at h
      unfold decideCases at h
      rw [if_neg (show ¬ s.outstanding = 0 by omega)] at h
      by_cases h2 : (s.active_slots : ℚ) / (s.outstanding : ℚ) < s.parallelism
      case neg =>
        rw [if_neg h2] at h
        split_ifs at h <;>
          simp only [Except.ok.injEq, Prod.mk.injEq, ScalingAction.scaleOut.injEq,
            reduceCtorEq, false_and] at h
        -- bootstrap branch: n = 1
        obtain ⟨rfl, -⟩ := h
        norm_num
      case pos =>
        rw [if_pos h2] at h
        split_ifs at h with h3 h4 <;>
          simp only [Except.ok.injEq, Prod.mk.injEq, ScalingAction.scaleOut.injEq,
            reduceCtorEq, false_and] at h
        -- under-provisioned branch: n = excessBlocksClamped s
        obtain ⟨rfl, -⟩ := h
        have houtq : (0 : ℚ) < (s.outstanding : ℚ) := by exact_mod_cast ht
        have hslots : (s.active_slots : ℚ) < s.parallelism * (s.outstanding : ℚ) :=
          (div_lt_iff₀ houtq).mp h2
        have hexcess : 0 < excessSlots s := by
          rw [excessSlots, Int.ceil_pos]
          nlinarith
        have hspb : (0 : ℚ) < (s.slots_per_block : ℚ) := by
          have : 0 < s.slots_per_block := by
            rw [Snapshot.slots_per_block]
            positivity
          exact_mod_cast this
        have hexq : (0 : ℚ) < (excessSlots s : ℚ) := by exact_mod_cast hexcess
        have hceil : 0 < ⌈(excessSlots s : ℚ) / (s.slots_per_block : ℚ)⌉ := by
          rw [Int.ceil_pos]
          exact div_pos hexq hspb
        rw [excessBlocksClamped]
        have hmax : 0 < s.max_blocks - s.active_blocks := by omega
        exact lt_min hceil hmax

theorem scaleOut_positive_witness : (0 : Int) < 1 :=
  scaleOut_positive exLoad none none 0 10 StrategyType.simple 1
    (by norm_num [exLoad]) (by norm_num [exLoad]) (by norm_num [exLoad])
    exLoad_eval


/-- Claim C8 (parallelism-zero edge case): with `parallelism = 0` and a
positive task count (and non-negative capacity parameters, so that
`active_slots >= 0`), the under-provisioned ratio test
`active_slots / active_tasks < parallelism` can never fire, and the cycle
issues a scale-out exactly when the bootstrap branch does: count 1, with
`active_slots = 0` and `active_blocks < max_blocks`. -/
theorem parallelism_zero_scale_out (s : Snapshot) (idle idle' : Option ℚ)
    (now mit : ℚ) (ty : StrategyType) (act : ScalingAction) (n : Int)
    (hen : s.scaling_enabled = true)
    (hp : s.parallelism = 0) (ht : 0 < s.outstanding)
    (hw : 0 ≤ s.workers_per_node) (hnb : 0 ≤ s.nodes_per_block)
    (h : generalStrategy s idle now mit ty = Except.ok (act, idle')) :
    act = ScalingAction.scaleOut n ↔
      n = 1 ∧ s.active_slots = 0 ∧ s.active_blocks < s.max_blocks := by
  have hab : 0 ≤ s.active_blocks := by
    rw [Snapshot.active_blocks]
    positivity
  have hslots : 0 ≤ s.active_slots := by
    rw [Snapshot.active_slots]
    positivity
  have hslotsq : (0 : ℚ) ≤ (s.active_slots : ℚ) := by exact_mod_cast hslots
  have houtq : (0 : ℚ) ≤ (s.outstanding : ℚ) := by
    have := ht.le
    exact_mod_cast this
  have hratio : ¬ ((s.active_slots : ℚ) / (s.outstanding : ℚ) < s.parallelism) := by
    rw [hp]
    exact not_lt.2 (div_nonneg hslotsq houtq)
  unfold generalStrategy at h
  rw [if_neg (by simp [hen])] at h
  cases hx : s.is_htex
  · simp [executorTypeGuard, hx, pyAssert, pyTruthy] at h
  · simp only [executorTypeGuard, hx, if_true] at h
    unfold decideCases at h
    rw [if_neg (show ¬ s.outstanding = 0 by omega), if_neg hratio] at h
    by_cases hboot : s.active_slots = 0 ∧ 0 < s.outstanding
    · rw [if_pos hboot] at h
      by_cases hcap : s.active_blocks < s.max_blocks
      · rw [if_pos hcap] at h
        simp only [Except.ok.injEq, Prod.mk.injEq] at h
        obtain ⟨rfl, rfl⟩ := h
        simp only [ScalingAction.scaleOut.injEq]
        constructor
        · rintro rfl
          exact ⟨rfl, hboot.1, hcap⟩
        · rintro ⟨rfl, -, -⟩
          rfl
      · rw [if_neg hcap] at h
        simp only [Except.ok.injEq, Prod.mk.injEq] at h
        obtain ⟨rfl, rfl⟩ := h
        simp only [reduceCtorEq, false_iff]
        rintro ⟨-, -, h1⟩
        exact hcap h1
    · rw [if_neg hboot] at h
      have hnz : ¬ s.active_slots = 0 := fun hz => hboot ⟨hz, ht⟩
      split_ifs at h <;>
        simp only [Except.ok.injEq, Prod.mk.injEq] at h <;>
        obtain ⟨rfl, rfl⟩ := h <;>
        simp only [reduceCtorEq, false_iff] <;>
        rintro ⟨-, h1, -⟩ <;>
        exact hnz h1

/-- A task backlog with zero provisioned capacity under `parallelism = 0`. -/
def exBoot : Snapshot :=
  { scaling_enabled := true, outstanding := 3, running := 0, pending := 0,
    min_blocks := 0, max_blocks := 4, is_htex := true, workers_per_node := 2,
    nodes_per_block := 1, parallelism := 0 }

lemma exBoot_eval :
    generalStrategy exBoot none 0 10 StrategyType.simple =
      Except.ok (ScalingAction.scaleOut 1, none) := by
  norm_num [generalStrategy, executorTypeGuard, decideCases, exBoot,
    Snapshot.active_blocks, Snapshot.active_slots, Snapshot.slots_per_block,
    resetIdleOnActiveTasks, startKillTimer, idleExpired, qTruthy,
    excessBlocksClamped, excessSlots]

theorem parallelism_zero_scale_out_witness :
    ScalingAction.scaleOut 1 = ScalingAction.scaleOut 1 ↔
      (1 : Int) = 1 ∧ exBoot.active_slots = 0 ∧
        exBoot.active_blocks < exBoot.max_blocks :=
  parallelism_zero_scale_out exBoot none none 0 10 StrategyType.simple
    (ScalingAction.scaleOut 1) 1 rfl rfl (by norm_num [exBoot])
    (by norm_num [exBoot]) (by norm_num [exBoot]) exBoot_eval


/-- A malformed snapshot: the executor reports -1 outstanding tasks, with no
provisioned blocks. -/
def exNeg : Snapshot :=
  { scaling_enabled := true, outstanding := -1, running := 0, pending := 0,
    min_blocks := 0, max_blocks := 4, is_htex := true, workers_per_node := 1,
    nodes_per_block := 1, parallelism := 1 }

lemma exNeg_eval :
    generalStrategy exNeg none 0 10 StrategyType.simple =
      Except.ok (ScalingAction.scaleOut (-1), none) := by
  norm_num [generalStrategy, executorTypeGuard, decideCases, exNeg,
    Snapshot.active_blocks, Snapshot.active_slots, Snapshot.slots_per_block,
    resetIdleOnActiveTasks, startKillTimer, idleExpired, qTruthy,
    excessBlocksClamped, excessSlots, Int.ceil_neg, Int.floor_one]

/-- Claim C9, counterexample: on the malformed snapshot with -1 outstanding
tasks the decision logic neither raises nor returns NoOp — the ratio test
`0 / (-1) < 1` puts it in the under-provisioned branch and it issues
`scale_out(-1)`. -/
theorem malformed_input_counterexample :
    exNeg.outstanding < 0 ∧
      generalStrategy exNeg none 0 10 StrategyType.simple =
        Except.ok (ScalingAction.scaleOut (-1), none) ∧
      ScalingAction.scaleOut (-1) ≠ ScalingAction.noOp := by
  refine ⟨by norm_num [exNeg], exNeg_eval, by simp⟩

/-- Claim C9, amended: the decision logic performs no defensive validation of
malformed numeric inputs. A snapshot with a negative active-task count and
zero provisioned slots (with positive parallelism, positive per-block slot
capacity and spare block headroom) falls into the under-provisioned branch
and issues a scale-out whose count is non-positive, instead of returning
NoOp or raising. -/
theorem negative_tasks_issue_nonpositive_scale_out (s : Snapshot)
    (idle : Option ℚ) (now mit : ℚ) (ty : StrategyType)
    (hen : s.scaling_enabled = true) (hx : s.is_htex = true)
    (ht : s.outstanding < 0) (hz : s.active_slots = 0)
    (hp : 0 < s.parallelism) (hspb : 0 < s.slots_per_block)
    (hab : s.active_blocks < s.max_blocks) :
    generalStrategy s idle now mit ty =
      Except.ok (ScalingAction.scaleOut (excessBlocksClamped s),
        resetIdleOnActiveTasks s idle) ∧
      excessBlocksClamped s ≤ 0 := by
  have hout : ¬ s.outstanding = 0 := by omega
  have hzq : (s.active_slots : ℚ) = 0 := by exact_mod_cast hz
  have hratio : (s.active_slots : ℚ) / (s.outstanding : ℚ) < s.parallelism := by
    rw [hzq, zero_div]
    exact hp
  have hexcess : excessSlots s ≤ 0 := by
    rw [excessSlots, hzq, sub_zero]
    have htq : (s.outstanding : ℚ) < 0 := by exact_mod_cast ht
    have : (s.outstanding : ℚ) * s.parallelism ≤ 0 :=
      le_of_lt (mul_neg_of_neg_of_pos htq hp)
    rw [show ((0 : ℤ) : ℤ) = 0 from rfl]
    exact Int.ceil_le.2 (by exact_mod_cast this)
  have hclamp : excessBlocksClamped s ≤ 0 := by
    rw [excessBlocksClamped]
    refine le_trans (min_le_left _ _) ?_
    have hspbq : (0 : ℚ) < (s.slots_per_block : ℚ) := by exact_mod_cast hspb
    have hexq : (excessSlots s : ℚ) ≤ 0 := by exact_mod_cast hexcess
    exact Int.ceil_le.2 (by
      rw [Int.cast_zero]
      exact div_nonpos_of_nonpos_of_nonneg hexq hspbq.le)
  refine ⟨?_, hclamp⟩
  unfold generalStrategy
  rw [if_neg (by simp [hen])]
  simp only [executorTypeGuard, hx, if_true]
  unfold decideCases
  rw [if_neg hout, if_pos hratio, if_neg (show ¬ s.active_blocks ≥ s.max_blocks by omega),
    if_neg (show ¬ s.slots_per_block = 0 by omega)]

theorem negative_tasks_issue_nonpositive_scale_out_witness :
    generalStrategy exNeg none 0 10 StrategyType.simple =
      Except.ok (ScalingAction.scaleOut (excessBlocksClamped exNeg),
        resetIdleOnActiveTasks exNeg none) ∧
      excessBlocksClamped exNeg ≤ 0 :=
  negative_tasks_issue_nonpositive_scale_out exNeg none 0 10 StrategyType.simple
    rfl rfl (by norm_num [exNeg])
    (by norm_num [exNeg, Snapshot.active_slots, Snapshot.active_blocks])
    (by norm_num [exNeg])
    (by norm_num [exNeg, Snapshot.slots_per_block])
    (by norm_num [exNeg, Snapshot.active_blocks])

/-- Claim C10: the executor-type guard for a non-HTEX executor asserts a
freshly constructed `RuntimeError` object, which is truthy, so the assertion
always passes (it never raises `AssertionError` for any message) and the
branch completes without assigning `tasks_per_node`. -/
theorem executor_type_guard_never_fails (s : Snapshot) (msg : String)
    (hx : s.is_htex = false) :
    pyAssert (PyObject.runtimeError msg) = Except.ok () ∧
      executorTypeGuard s = Except.ok none := by
  constructor
  · simp [pyAssert, pyTruthy]
  · simp [executorTypeGuard, hx, pyAssert, pyTruthy]

/-- A non-HTEX executor snapshot. -/
def exNonHtex : Snapshot :=
  { scaling_enabled := true, outstanding := 3, running := 0, pending := 0,
    min_blocks := 0, max_blocks := 4, is_htex := false, workers_per_node := 2,
    nodes_per_block := 1, parallelism := 1 }

theorem executor_type_guard_never_fails_witness :
    pyAssert (PyObject.runtimeError
        "BENC: missing else statement in executor case matching") =
      Except.ok () ∧
      executorTypeGuard exNonHtex = Except.ok none :=
  executor_type_guard_never_fails exNonHtex
    "BENC: missing else statement in executor case matching" rfl

end ParslStrategy
